import Mathlib

/-!
Verification of the DramaChecker episode tracker (`src/main.py`).

The development shallowly embeds the decision logic of `main.py`:

* the episode detector `find_episodes` over parsed HTML markup
  (BeautifulSoup trees are modelled by the inductive `Node`; the
  detector scans `<p>` elements whose class contains the substring
  "toggler", mirroring `soup.find_all("p", class_=lambda c: c and
  "toggler" in c)`);
* the regular-expression search used by `extract_episode_number`
  (pattern `Odcinek\s*(\d+)`, note: WITHOUT `re.IGNORECASE` — the
  case-insensitive `EPISODE_RE` defined at the top of `main.py` is
  never used);
* the lenient numeric parser `parse_int`;
* header mapping `map_headers` / sheet reading `read_series`;
* the per-row reconciliation of `main`'s loop (`process_row`) and the
  loop itself (`runRows`), with store writes, notification items and
  problem strings made explicit.

Character-level operations (`\s`, `\d`, `str.strip`, `str.lower`) are
modelled over the ASCII range; Python's versions also accept some
non-ASCII characters, which none of the verified properties exercise.
Python strings are modelled by `String` / `List Char` with the same
contents.
-/

namespace DramaChecker

/-! ## Parsed markup

`Node` models the element tree BeautifulSoup produces from the fetched
page: an element has a (parser-lowercased) tag name, the multi-valued
`class` attribute as a list of class strings (absent attribute = `[]`),
and children; text nodes carry their string. -/

inductive Node where
  | text (s : String)
  | elem (tag : String) (classes : List String) (children : List Node)
deriving Repr

/-- Python `needle in hay` on lists of characters: `needle` occurs as a
contiguous substring of `hay`. -/
def listPrefixOf : List Char → List Char → Bool
  | [], _ => true
  | _ :: _, [] => false
  | p :: ps, c :: cs => p == c && listPrefixOf ps cs

def occursIn (needle : List Char) : List Char → Bool
  | [] => needle.isEmpty
  | c :: cs => listPrefixOf needle (c :: cs) || occursIn needle cs

/-- The class filter of `find_all("p", class_=lambda c: c and "toggler" in c)`:
BeautifulSoup applies the lambda to each class string of the multi-valued
attribute (and to their space-join, which for the space-free needle
"toggler" matches iff some individual class does). -/
def hasTogglerClass (classes : List String) : Bool :=
  classes.any (fun c => occursIn "toggler".toList c.toList)

/-! `soup.find_all("p", class_=...)`: all matching elements of the tree,
in document (preorder) order. -/
mutual
def togglersN : Node → List Node
  | .text _ => []
  | .elem t c ch =>
      (if t = "p" ∧ hasTogglerClass c then [Node.elem t c ch] else []) ++ togglersL ch
def togglersL : List Node → List Node
  | [] => []
  | n :: ns => togglersN n ++ togglersL ns
end

/-! All text-node strings below a node, in document order
(`element.strings`). -/
mutual
def textsN : Node → List String
  | .text s => [s]
  | .elem _ _ ch => textsL ch
def textsL : List Node → List String
  | [] => []
  | n :: ns => textsN n ++ textsL ns
end

/-- Python's `\s` / `str.strip` whitespace set, ASCII range. -/
def isPySpace (c : Char) : Bool :=
  c == ' ' || c == '\t' || c == '\n' || c == '\r' || c == '\x0b' || c == '\x0c'

/-- Python `str.strip()` on the character list: drop leading and
trailing whitespace. -/
def pyStripList (l : List Char) : List Char :=
  ((l.dropWhile isPySpace).reverse.dropWhile isPySpace).reverse

/-- Python `str.strip()`. -/
def pyStrip (s : String) : String :=
  String.mk (pyStripList s.toList)

/-- `p.get_text(" ", strip=True)`: each descendant string stripped,
empty ones dropped, the rest joined with a single space. -/
def getText (p : Node) : String :=
  String.intercalate " " (((textsN p).map pyStrip).filter (fun s => s != ""))

/-! `node.find("img") is not None` looks at the node itself within a
descendant scan. -/
mutual
def hasImgN : Node → Bool
  | .text _ => false
  | .elem t _ ch => t == "img" || hasImgL ch
def hasImgL : List Node → Bool
  | [] => false
  | n :: ns => hasImgN n || hasImgL ns
end

/-- `p.find("img") is not None`: an `img` element among the descendants
of `p` (the candidate `p` itself is a `p` tag, never `img`). -/
def hasImg : Node → Bool
  | .text _ => false
  | .elem _ _ ch => hasImgL ch

/-! ## The regex `EPISODE_ANY_RE = re.compile(r"Odcinek\s*(\d+)")`

`main.py` line 35; `re.IGNORECASE` is NOT set on this regex (only on
the unused `EPISODE_RE`). `search` finds the leftmost position where
the literal `Odcinek` is followed by optional whitespace and at least
one digit; the (greedy) group captures the maximal digit run. -/

/-- Match the literal prefix, returning the rest of the input. -/
def stripLit : List Char → List Char → Option (List Char)
  | [], cs => some cs
  | _ :: _, [] => none
  | p :: ps, c :: cs => if p = c then stripLit ps cs else none

/-- Try the whole pattern at the current position; on success return the
captured digit run. -/
def matchOdcinekAt (cs : List Char) : Option (List Char) :=
  match stripLit "Odcinek".toList cs with
  | none => none
  | some rest =>
      let digits := (rest.dropWhile isPySpace).takeWhile Char.isDigit
      if digits = [] then none else some digits

/-- `EPISODE_ANY_RE.search`: leftmost match. -/
def searchOdcinek : List Char → Option (List Char)
  | [] => none
  | c :: cs =>
      match matchOdcinekAt (c :: cs) with
      | some d => some d
      | none => searchOdcinek cs

/-- Value of an ASCII digit string (`int(match.group(1))`). -/
def natOfDigits (ds : List Char) : Nat :=
  ds.foldl (fun a c => a * 10 + (c.toNat - 48)) 0

/-- `extract_episode_number` (main.py lines 102–109). `int` on a
captured ASCII digit run never raises, so the `except` branch is dead. -/
def extract_episode_number (text : String) : Option Int :=
  (searchOdcinek text.toList).map (fun ds => (natOfDigits ds : Int))

/-! ## The detector `find_episodes` (main.py lines 112–138) -/

structure EpisodeCheckResult where
  latest_ready : Option Int
  max_found : Option Int
  error : Option String
deriving Repr, DecidableEq

/-- One `if num > current: current = num` update of a running maximum
held in an `Optional[int]`. -/
def bumpMax (o : Option Int) (n : Int) : Option Int :=
  match o with
  | none => some n
  | some m => if n > m then some n else some m

/-- The `for p in p_tags:` loop of `find_episodes`, carrying
`(latest_ready, max_found)`. -/
def scanLoop : List Node → Option Int × Option Int → Option Int × Option Int
  | [], acc => acc
  | p :: ps, (lr, mf) =>
      let num := extract_episode_number (getText p)
      let mf' := match num with
        | some n => bumpMax mf n
        | none => mf
      -- "jeżeli w nagłówku jest <img> – to jest korekta => NIE gotowy"
      let lr' := match num with
        | some n => if hasImg p then lr else bumpMax lr n
        | none => lr
      scanLoop ps (lr', mf')

def noHeadingsMsg : String := "Nie znaleziono żadnego nagłówka odcinka."

/-- `find_episodes`. The `try/except` around the scan is modelled by
totality: scanning a parsed tree cannot fail, so the function always
returns a result. The input is the parsed document (a forest). -/
def find_episodes (doc : List Node) : EpisodeCheckResult :=
  let acc := scanLoop (togglersL doc) (none, none)
  if acc.1 = none ∧ acc.2 = none then
    ⟨none, none, some noHeadingsMsg⟩
  else
    ⟨acc.1, acc.2, none⟩

/-! Spec-side notions used to state properties of the detector. -/

/-- The number captured from one toggler heading, if any. -/
def extractOf (p : Node) : Option Int :=
  extract_episode_number (getText p)

/-- All numbers captured from toggler headings of the document. -/
def capturedNums (doc : List Node) : List Int :=
  (togglersL doc).filterMap extractOf

/-- Numbers captured from toggler headings without an embedded image. -/
def readyNums (doc : List Node) : List Int :=
  ((togglersL doc).filter (fun p => !hasImg p)).filterMap extractOf

def foldMax (o : Option Int) (l : List Int) : Option Int :=
  l.foldl bumpMax o

/-- Maximum of a list of numbers, `none` on the empty list. -/
def listMax (l : List Int) : Option Int :=
  foldMax none l

/-- Numbers captured from a list of candidate headings. -/
def numsOf (ps : List Node) : List Int :=
  ps.filterMap extractOf

/-- Numbers captured from the image-free headings of the list. -/
def readyOf (ps : List Node) : List Int :=
  (ps.filter (fun p => !hasImg p)).filterMap extractOf

/-! ## `parse_int` (main.py lines 84–95)

A spreadsheet cell value as seen by `parse_int`: a Python number
(`int`; `ws.get_all_values()` in fact only ever yields `str`), a
string, or `None`. -/

inductive CellValue where
  | int (n : Int)
  | str (s : String)
  | null
deriving Repr, DecidableEq

/-- Numeric value of an ASCII digit character list as `int` parses it;
partial application to the digits kept by `re.sub(r"\D", "", s)`. -/
def parse_int (value : CellValue) (default : Int) : Int :=
  match value with
  | .int n => n
  | .null => default
  | .str v =>
      -- s = str(value).strip(); if not s: return default
      let s := pyStripList v.toList
      if s = [] then default
      else
        -- int(re.sub(r"\D", "", s)); int("") raises -> except -> default
        let digits := s.filter Char.isDigit
        if digits = [] then default
        else (natOfDigits digits : Int)

/-! ## `SeriesRow` and the sheet reader (main.py lines 52–65, 171–208)

The Python field names `liczba_odcinków` and the email-dict key `tytuł`
contain letters Lean identifiers do not accept; they are rendered
`liczba_odcinkow` / `tytul`. -/

structure SeriesRow where
  row_idx : Nat          -- 1-based sheet row, header included
  nazwa : String
  link : String
  obejrzany_odcinek : Int
  odcinek_na_stronie : Int
  liczba_odcinkow : Int
deriving Repr, DecidableEq

/-- `SeriesRow.is_done`: `obejrzany_odcinek == odcinek_na_stronie ==
liczba_odcinków` (chained comparison). -/
def SeriesRow.is_done (s : SeriesRow) : Bool :=
  s.obejrzany_odcinek == s.odcinek_na_stronie &&
    s.odcinek_na_stronie == s.liczba_odcinkow

/-- Resolved header mapping: canonical column name → 0-based column
index.  `map_headers` fails unless all five canonical columns resolve,
so the resolved mapping is total. -/
structure Mapping where
  nazwa : Nat
  link : Nat
  obejrzany_odcinek : Nat
  odcinek_na_stronie : Nat
  liczba_odcinkow : Nat
deriving Repr, DecidableEq

/-- `COLUMN_ALIASES` (main.py lines 44–50), values as listed there,
including the historical typo `liczba_odicnków`. -/
def aliasesNazwa : List String := ["nazwa", "tytuł", "tytul"]
def aliasesLink : List String := ["link", "url"]
def aliasesObejrzany : List String := ["obejrzany_odcinek", "last_watched", "obejrzany"]
def aliasesNaStronie : List String := ["odcinek_na_stronie", "last_on_site", "na_stronie"]
def aliasesLiczba : List String := ["liczba_odcinków", "liczba_odicnków", "liczba_odc", "max_odcinek"]

/-- Python `str.lower()`, ASCII range. -/
def pyLower (s : String) : String :=
  String.mk (s.toList.map Char.toLower)

/-- The inner loop of `map_headers`: first alias present in the
normalized header wins; its first occurrence index is recorded. -/
def findAlias (header_norm : List String) : List String → Option Nat
  | [] => none
  | a :: rest =>
      if header_norm.contains a then some (List.indexOf a header_norm)
      else findAlias header_norm rest

/-- `map_headers` (main.py lines 171–183).  The Python error message
interpolates the missing-column and header lists; the text is not
relied on by any property, only the failure itself. -/
def map_headers (header_row : List String) : Except String Mapping :=
  let header_norm := header_row.map (fun h => pyLower (pyStrip h))
  match findAlias header_norm aliasesNazwa, findAlias header_norm aliasesLink,
        findAlias header_norm aliasesObejrzany, findAlias header_norm aliasesNaStronie,
        findAlias header_norm aliasesLiczba with
  | some a, some b, some c, some d, some e => .ok ⟨a, b, c, d, e⟩
  | _, _, _, _, _ => .error "Brak wymaganych kolumn w nagłówku."

/-- The row-cell accessor of `read_series`:
`row[idx] if idx < len(row) else ""`. -/
def getCell (row : List String) (idx : Nat) : String :=
  row.getD idx ""

/-- Construction of one `SeriesRow` in `read_series` (main.py lines
199–206); `i` is the 1-based sheet row index. -/
def rowToSeries (m : Mapping) (i : Nat) (row : List String) : SeriesRow :=
  { row_idx := i
  , nazwa := getCell row m.nazwa
  , link := getCell row m.link
  , obejrzany_odcinek := parse_int (.str (getCell row m.obejrzany_odcinek)) 0
  , odcinek_na_stronie := parse_int (.str (getCell row m.odcinek_na_stronie)) 0
  , liczba_odcinkow := parse_int (.str (getCell row m.liczba_odcinkow)) 0 }

/-- `read_series` (main.py lines 186–208) on the 2D cell values
returned by `ws.get_all_values()`.  Failures (`raise RuntimeError`) are
the `Except.error` cases. -/
def read_series (values : List (List String)) :
    Except String (List SeriesRow × List String × Mapping) :=
  match values with
  | [] => .error "Arkusz jest pusty."
  | header :: rest =>
      match map_headers header with
      | .error e => .error e
      | .ok m =>
          .ok (rest.mapIdx (fun i row => rowToSeries m (i + 2) row), header, m)

/-! ## The reconciliation loop of `main` (main.py lines 338–381) -/

/-- One `update_cell(ws, row, col, value)` call (1-based coordinates). -/
structure CellWrite where
  row : Nat
  col : Nat
  value : Int
deriving Repr, DecidableEq

/-- One entry of `new_items` (the Python dict keys are `tytuł`,
`nowy_odcinek`, `ostatni_obejrzany`, `link`). -/
structure NotificationItem where
  tytul : String
  nowy_odcinek : Int
  ostatni_obejrzany : Int
  link : String
deriving Repr, DecidableEq

/-- Observable effects of processing one row of the loop: the row as
left in memory, whether the page fetch was performed, the issued store
writes, appended notification items, and appended problem strings. -/
structure RowEffects where
  row : SeriesRow
  fetched : Bool
  writes : List CellWrite
  new_items : List NotificationItem
  problems : List String
deriving Repr, DecidableEq

/-- Python truthiness of `result.error` (`None` and `""` are falsy). -/
def errTruthy : Option String → Bool
  | none => false
  | some e => e != ""

/-- The body of `main`'s `for s in rows:` loop for one row, given
`result`, the `EpisodeCheckResult` the fetch+detector would produce for
this row (the oracle is consulted only when the code actually fetches;
`fetched` records whether it did).  Store writes are modelled as
succeeding: the `except APIError` handlers are dead in that case.
Mirrors main.py lines 338–381. -/
def process_row (mapping : Mapping) (result : EpisodeCheckResult) (s : SeriesRow) :
    RowEffects :=
  if s.is_done then ⟨s, false, [], [], []⟩
  else if s.link = "" then ⟨s, false, [], [], [s.nazwa ++ ": brak linku w arkuszu"]⟩
  else if errTruthy result.error then ⟨s, true, [], [], [result.error.getD ""]⟩
  else
    -- latest_ready = result.latest_ready or 0  (for ints, `x or 0` = x
    -- unless x is 0, so it coincides with getD 0)
    let latest_ready := result.latest_ready.getD 0
    let max_found := result.max_found.getD 0
    let s1 := if latest_ready > s.odcinek_na_stronie
      then { s with odcinek_na_stronie := latest_ready } else s
    let w1 : List CellWrite := if latest_ready > s.odcinek_na_stronie
      then [⟨s.row_idx, mapping.odcinek_na_stronie + 1, latest_ready⟩] else []
    let s2 := if max_found > s1.liczba_odcinkow
      then { s1 with liczba_odcinkow := max_found } else s1
    let w2 : List CellWrite := if max_found > s1.liczba_odcinkow
      then [⟨s1.row_idx, mapping.liczba_odcinkow + 1, max_found⟩] else []
    let items : List NotificationItem :=
      if s2.obejrzany_odcinek < s2.odcinek_na_stronie
      then [⟨s2.nazwa, s2.odcinek_na_stronie, s2.obejrzany_odcinek, s2.link⟩] else []
    ⟨s2, true, w1 ++ w2, items, []⟩

/-- Accumulated state of the whole loop: final in-memory rows, the
`new_items` and `problems` lists, all issued writes, and how many
fetches were performed. -/
structure RunAcc where
  rows : List SeriesRow
  new_items : List NotificationItem
  problems : List String
  writes : List CellWrite
  fetchCount : Nat
deriving Repr, DecidableEq

/-- `main`'s loop over all rows, sequential and independent per row;
`fetch` abstracts `check_series session`. -/
def runRows (mapping : Mapping) (fetch : SeriesRow → EpisodeCheckResult) :
    List SeriesRow → RunAcc
  | [] => ⟨[], [], [], [], 0⟩
  | s :: rest =>
      let e := process_row mapping (fetch s) s
      let r := runRows mapping fetch rest
      ⟨e.row :: r.rows, e.new_items ++ r.new_items, e.problems ++ r.problems,
        e.writes ++ r.writes, (if e.fetched then 1 else 0) + r.fetchCount⟩

/-! ## Concrete inputs used by the scenario claims and witnesses -/

/-- Page markup of the C2 scenario: toggler heading "Odcinek 6" without
an image and toggler heading "Odcinek 7" with an image. -/
def sampleDoc : List Node :=
  [ Node.elem "p" ["toggler"] [Node.text "Odcinek 6"],
    Node.elem "p" ["toggler"] [Node.text "Odcinek 7", Node.elem "img" [] []] ]

/-- Markup where the only toggler heading carries an image. -/
def allImgDoc : List Node :=
  [ Node.elem "div" [] [Node.elem "p" ["su-toggler-x"]
      [Node.text "Odcinek 3", Node.elem "img" [] []]] ]

/-- The stored row of the C2 scenario: watched 5, on-site 5, total 12. -/
def sampleRow : SeriesRow :=
  ⟨2, "Serial", "http://example/serial", 5, 5, 12⟩

/-- A header in canonical order and its resolved mapping. -/
def sampleHeader : List String :=
  ["nazwa", "link", "obejrzany_odcinek", "odcinek_na_stronie", "liczba_odcinków"]

def sampleMapping : Mapping := ⟨0, 1, 2, 3, 4⟩

/-- A fully watched (complete) row. -/
def doneRow : SeriesRow := ⟨3, "Koniec", "http://example/koniec", 8, 8, 8⟩

/-! ## Lemmas about the running maximum -/

theorem bumpMax_spec (o : Option Int) (n : Int) :
    ∃ b, bumpMax o n = some b ∧ n ≤ b ∧ (∀ k, o = some k → k ≤ b) ∧
      (b = n ∨ o = some b) := by
  cases o with
  | none =>
      refine ⟨n, rfl, le_refl n, fun k hk => ?_, Or.inl rfl⟩
      simp at hk
  | some m =>
      by_cases h : n > m
      · refine ⟨n, by simp [bumpMax, h], le_refl n, ?_, Or.inl rfl⟩
        intro k hk
        obtain rfl : m = k := by simpa using hk
        exact le_of_lt h
      · refine ⟨m, by simp [bumpMax, h], le_of_not_lt h, ?_, Or.inr rfl⟩
        intro k hk
        obtain rfl : m = k := by simpa using hk
        exact le_refl m

theorem foldMax_some_spec (l : List Int) :
    ∀ (o : Option Int) (m : Int), foldMax o l = some m →
      (∀ k, o = some k → k ≤ m) ∧ (∀ n ∈ l, n ≤ m) ∧ (o = some m ∨ m ∈ l) := by
  induction l with
  | nil =>
      intro o m h
      have ho : o = some m := h
      refine ⟨fun k hk => ?_, by simp, Or.inl ho⟩
      rw [ho] at hk
      obtain rfl : m = k := by simpa using hk
      exact le_refl m
  | cons n l ih =>
      intro o m h
      obtain ⟨b, hb, hnb, hob, hbor⟩ := bumpMax_spec o n
      have h' : foldMax (some b) l = some m := by
        simpa [foldMax, hb] using h
      obtain ⟨h1, h2, h3⟩ := ih (some b) m h'
      have hbm : b ≤ m := h1 b rfl
      refine ⟨fun k hk => le_trans (hob k hk) hbm, ?_, ?_⟩
      · intro x hx
        rcases List.mem_cons.mp hx with rfl | hx'
        · exact le_trans hnb hbm
        · exact h2 x hx'
      · rcases h3 with hbm' | hml
        · obtain rfl : b = m := by simpa using hbm'
          rcases hbor with rfl | ho
          · exact Or.inr (List.mem_cons_self _ _)
          · exact Or.inl ho
        · exact Or.inr (List.mem_cons_of_mem _ hml)

theorem foldMax_eq_none_iff (l : List Int) :
    ∀ o : Option Int, foldMax o l = none ↔ o = none ∧ l = [] := by
  induction l with
  | nil => intro o; simp [foldMax]
  | cons n l ih =>
      intro o
      obtain ⟨b, hb, -, -, -⟩ := bumpMax_spec o n
      have : foldMax o (n :: l) = foldMax (some b) l := by
        simp [foldMax, hb]
      rw [this, ih]
      simp

theorem listMax_eq_none_iff (l : List Int) : listMax l = none ↔ l = [] := by
  rw [listMax, foldMax_eq_none_iff]
  simp

theorem listMax_of_ne_nil (l : List Int) (h : l ≠ []) :
    ∃ m, listMax l = some m ∧ m ∈ l ∧ ∀ n ∈ l, n ≤ m := by
  cases hl : listMax l with
  | none => exact absurd ((listMax_eq_none_iff l).mp hl) h
  | some m =>
      obtain ⟨-, h2, h3⟩ := foldMax_some_spec l none m hl
      rcases h3 with h3 | h3
      · cases h3
      · exact ⟨m, rfl, h3, h2⟩

/-! ## Characterization of the detector loop -/

theorem scanLoop_spec (ps : List Node) :
    ∀ lr mf : Option Int,
      scanLoop ps (lr, mf) = (foldMax lr (readyOf ps), foldMax mf (numsOf ps)) := by
  induction ps with
  | nil => intro lr mf; rfl
  | cons p ps ih =>
      intro lr mf
      cases hnum : extractOf p with
      | none =>
          have hstep : scanLoop (p :: ps) (lr, mf) = scanLoop ps (lr, mf) := by
            simp [scanLoop, extractOf] at hnum ⊢
            simp [hnum]
          rw [hstep, ih]
          have hn : numsOf (p :: ps) = numsOf ps := by
            simp [numsOf, List.filterMap_cons, hnum]
          have hr : readyOf (p :: ps) = readyOf ps := by
            by_cases himg : hasImg p
            · simp [readyOf, List.filter_cons, himg]
            · simp [readyOf, List.filter_cons, himg, List.filterMap_cons, hnum]
          rw [hn, hr]
      | some n =>
          by_cases himg : hasImg p
          · have hstep : scanLoop (p :: ps) (lr, mf) = scanLoop ps (lr, bumpMax mf n) := by
              simp [scanLoop, extractOf] at hnum ⊢
              simp [hnum, himg]
            rw [hstep, ih]
            have hn : numsOf (p :: ps) = n :: numsOf ps := by
              simp [numsOf, List.filterMap_cons, hnum]
            have hr : readyOf (p :: ps) = readyOf ps := by
              simp [readyOf, List.filter_cons, himg]
            rw [hn, hr]
            rfl
          · have hstep : scanLoop (p :: ps) (lr, mf) =
                scanLoop ps (bumpMax lr n, bumpMax mf n) := by
              simp [scanLoop, extractOf] at hnum ⊢
              simp [hnum, himg]
            rw [hstep, ih]
            have hn : numsOf (p :: ps) = n :: numsOf ps := by
              simp [numsOf, List.filterMap_cons, hnum]
            have hr : readyOf (p :: ps) = n :: readyOf ps := by
              simp [readyOf, List.filter_cons, himg, List.filterMap_cons, hnum]
            rw [hn, hr]
            rfl

theorem readyNums_subset (doc : List Node) :
    ∀ x ∈ readyNums doc, x ∈ capturedNums doc := by
  intro x hx
  rw [readyNums, List.mem_filterMap] at hx
  obtain ⟨p, hp, he⟩ := hx
  rw [capturedNums, List.mem_filterMap]
  exact ⟨p, List.mem_of_mem_filter hp, he⟩

theorem readyNums_nil_of_captured_nil (doc : List Node)
    (h : capturedNums doc = []) : readyNums doc = [] := by
  rw [List.eq_nil_iff_forall_not_mem]
  intro x hx
  have := readyNums_subset doc x hx
  simp [h] at this

/-- Closed form of `find_episodes`: failure exactly when no heading
yields a number, otherwise the two maxima. -/
theorem find_episodes_spec (doc : List Node) :
    find_episodes doc =
      if capturedNums doc = [] then ⟨none, none, some noHeadingsMsg⟩
      else ⟨listMax (readyNums doc), listMax (capturedNums doc), none⟩ := by
  have hacc : scanLoop (togglersL doc) (none, none) =
      (listMax (readyNums doc), listMax (capturedNums doc)) :=
    scanLoop_spec (togglersL doc) none none
  by_cases h : capturedNums doc = []
  · have hr : readyNums doc = [] := readyNums_nil_of_captured_nil doc h
    rw [find_episodes, hacc]
    simp [h, hr, listMax_eq_none_iff]
  · have h2 : listMax (capturedNums doc) ≠ none := by
      rw [Ne, listMax_eq_none_iff]; exact h
    rw [find_episodes, hacc]
    simp [h, h2]

/-! ## Claim theorems about the detector -/

/-- C1: a number captured from a toggler heading with an embedded image
is excluded from `latest_ready` (which equals the maximum over
image-free headings only) but still counted toward `max_found`; in
particular, if every toggler heading carries an image, `latest_ready`
is absent and `max_found` is the maximum of all captured numbers. -/
theorem C1_image_marked_headings (doc : List Node) :
    ((find_episodes doc).latest_ready = listMax (readyNums doc)) ∧
    (∀ p ∈ togglersL doc, hasImg p = true → ∀ n : Int, extractOf p = some n →
        ∃ m, (find_episodes doc).max_found = some m ∧ n ≤ m) ∧
    ((∀ p ∈ togglersL doc, hasImg p = true) →
        (find_episodes doc).latest_ready = none ∧
        (find_episodes doc).max_found = listMax (capturedNums doc) ∧
        (capturedNums doc ≠ [] → ∃ m, (find_episodes doc).max_found = some m ∧
            m ∈ capturedNums doc ∧ ∀ k ∈ capturedNums doc, k ≤ m)) := by
  have hspec := find_episodes_spec doc
  refine ⟨?_, ?_, ?_⟩
  · rw [hspec]
    by_cases h : capturedNums doc = []
    · have hr : readyNums doc = [] := readyNums_nil_of_captured_nil doc h
      simp [h, hr]
      rfl
    · simp [h]
  · intro p hp himg n hn
    have hmem : n ∈ capturedNums doc := by
      rw [capturedNums, List.mem_filterMap]
      exact ⟨p, hp, hn⟩
    have hne : capturedNums doc ≠ [] := List.ne_nil_of_mem hmem
    obtain ⟨m, hm, -, hub⟩ := listMax_of_ne_nil _ hne
    refine ⟨m, ?_, hub n hmem⟩
    rw [hspec]
    simp [hne, hm]
  · intro hall
    have hr : readyNums doc = [] := by
      rw [readyNums]
      have : (togglersL doc).filter (fun p => !hasImg p) = [] := by
        rw [List.eq_nil_iff_forall_not_mem]
        intro p hp
        have h1 := List.of_mem_filter hp
        have h2 := hall p (List.mem_of_mem_filter hp)
        simp [h2] at h1
      rw [this]
      rfl
    refine ⟨?_, ?_, ?_⟩
    · rw [hspec]
      by_cases h : capturedNums doc = []
      · simp [h]
      · simp [h, hr]
        rfl
    · rw [hspec]
      by_cases h : capturedNums doc = []
      · simp [h]
        rfl
      · simp [h]
    · intro hne
      obtain ⟨m, hm, hmem, hub⟩ := listMax_of_ne_nil _ hne
      refine ⟨m, ?_, hmem, hub⟩
      rw [hspec]
      simp [hne, hm]

/-- C1 witness: a document whose only toggler heading carries an image,
"Odcinek 3". -/
theorem C1_image_marked_headings_witness :
    (find_episodes allImgDoc).latest_ready = none ∧
    (find_episodes allImgDoc).max_found = listMax (capturedNums allImgDoc) ∧
    (capturedNums allImgDoc ≠ [] → ∃ m, (find_episodes allImgDoc).max_found = some m ∧
        m ∈ capturedNums allImgDoc ∧ ∀ k ∈ capturedNums allImgDoc, k ≤ m) :=
  (C1_image_marked_headings allImgDoc).2.2 (by decide)

/-- C6: the detector is a total function; the "no episode headings
found" failure (with both numeric fields absent) is returned exactly
when no toggler heading yields a captured number, and otherwise the
optional fields are populated with no failure set. -/
theorem C6_detector_total_failure_iff (doc : List Node) :
    ((find_episodes doc).error ≠ none ↔ capturedNums doc = []) ∧
    (capturedNums doc = [] →
        find_episodes doc = ⟨none, none, some noHeadingsMsg⟩) ∧
    (capturedNums doc ≠ [] →
        (find_episodes doc).error = none ∧
        (find_episodes doc).latest_ready = listMax (readyNums doc) ∧
        ∃ m, (find_episodes doc).max_found = some m) := by
  have hspec := find_episodes_spec doc
  by_cases h : capturedNums doc = []
  · rw [hspec]
    simp [h]
  · obtain ⟨m, hm, -, -⟩ := listMax_of_ne_nil _ h
    rw [hspec]
    simp [h, hm]

/-- C6 witness: the empty document has no toggler headings. -/
theorem C6_detector_total_failure_iff_witness :
    find_episodes [] = ⟨none, none, some noHeadingsMsg⟩ :=
  (C6_detector_total_failure_iff []).2.1 rfl

/-- C8: whenever `latest_ready` is present, `max_found` is present and
at least as large. -/
theorem C8_latest_le_max (doc : List Node) (k : Int)
    (h : (find_episodes doc).latest_ready = some k) :
    ∃ m, (find_episodes doc).max_found = some m ∧ k ≤ m := by
  have hspec := find_episodes_spec doc
  by_cases hc : capturedNums doc = []
  · rw [hspec] at h
    simp [hc] at h
  · rw [hspec] at h
    simp [hc] at h
    have hk : k ∈ readyNums doc := by
      obtain ⟨-, -, h3⟩ := foldMax_some_spec (readyNums doc) none k h
      rcases h3 with h3 | h3
      · cases h3
      · exact h3
    have hk' : k ∈ capturedNums doc := readyNums_subset doc k hk
    obtain ⟨m, hm, -, hub⟩ := listMax_of_ne_nil _ hc
    refine ⟨m, ?_, hub k hk'⟩
    rw [hspec]
    simp [hc, hm]

/-- C8 witness: the two-heading sample page, where `latest_ready = 6`
and `max_found = 7`. -/
theorem C8_latest_le_max_witness :
    ∃ m, (find_episodes sampleDoc).max_found = some m ∧ (6 : Int) ≤ m :=
  C8_latest_le_max sampleDoc 6 (by decide)

/-- C4: the episode-number extraction is NOT case-insensitive.  The
regex actually used, `EPISODE_ANY_RE = re.compile(r"Odcinek\s*(\d+)")`
(main.py line 35), lacks `re.IGNORECASE` — that flag is only on the
unused `EPISODE_RE` (line 33) — so lowercase "odcinek 7" and uppercase
"ODCINEK 7" yield no number, contradicting the claimed behaviour, while
"Odcinek 7" yields 7.  A heading whose text has no match indeed
contributes to neither result field. -/
theorem C4_extraction_case_sensitive :
    extract_episode_number "odcinek 7" = none ∧
    extract_episode_number "ODCINEK 7" = none ∧
    extract_episode_number "Odcinek 7" = some 7 ∧
    find_episodes [Node.elem "p" ["toggler"] [Node.text "odcinek 7"]] =
      ⟨none, none, some noHeadingsMsg⟩ := by
  refine ⟨rfl, rfl, rfl, rfl⟩

/-! ## Lemmas about `parse_int` -/

theorem isPySpace_not_digit (c : Char) (h : isPySpace c = true) :
    c.isDigit = false := by
  simp [isPySpace] at h
  rcases h with ((((rfl | rfl) | rfl) | rfl) | rfl) | rfl <;> decide

theorem filter_isDigit_dropWhile (l : List Char) :
    (l.dropWhile isPySpace).filter Char.isDigit = l.filter Char.isDigit := by
  induction l with
  | nil => rfl
  | cons c l ih =>
      by_cases h : isPySpace c
      · rw [List.dropWhile_cons_of_pos h, ih, List.filter_cons_of_neg]
        simp [isPySpace_not_digit c h]
      · rw [List.dropWhile_cons_of_neg h]

theorem filter_isDigit_pyStripList (l : List Char) :
    (pyStripList l).filter Char.isDigit = l.filter Char.isDigit := by
  rw [pyStripList, List.filter_reverse, filter_isDigit_dropWhile,
    List.filter_reverse, filter_isDigit_dropWhile, List.reverse_reverse]

theorem filter_isDigit_of_pyStripList_nil (l : List Char)
    (h : pyStripList l = []) : l.filter Char.isDigit = [] := by
  rw [← filter_isDigit_pyStripList, h]
  rfl

/-- C5: the lenient numeric parser is a total function (the Python
implementation catches every exception); numeric values are returned
directly, text values keep exactly their digit characters, and empty or
digit-free values yield the default.  Including the spec's examples:
"12 odc." parses to 12, empty and non-numeric cells to 0. -/
theorem C5_parse_int_lenient :
    (∀ (n : Int) (d : Int), parse_int (.int n) d = n) ∧
    (∀ d : Int, parse_int .null d = d) ∧
    (∀ (s : String) (d : Int),
        parse_int (.str s) d =
          if s.toList.filter Char.isDigit = [] then d
          else (natOfDigits (s.toList.filter Char.isDigit) : Int)) ∧
    parse_int (.str "12 odc.") 0 = 12 ∧
    parse_int (.str "") 0 = 0 ∧
    parse_int (.str "n/a") 0 = 0 := by
  refine ⟨fun n d => rfl, fun d => rfl, ?_, rfl, rfl, rfl⟩
  intro s d
  show (if pyStripList s.toList = [] then d
      else if (pyStripList s.toList).filter Char.isDigit = [] then d
      else (natOfDigits ((pyStripList s.toList).filter Char.isDigit) : Int)) = _
  by_cases h : pyStripList s.toList = []
  · rw [if_pos h, if_pos (filter_isDigit_of_pyStripList_nil _ h)]
  · rw [if_neg h, filter_isDigit_pyStripList]

/-- C5 witness: the general text clause evaluated at "12 odc.". -/
theorem C5_parse_int_lenient_witness :
    parse_int (.str "12 odc.") 0 =
      if "12 odc.".toList.filter Char.isDigit = [] then 0
      else (natOfDigits ("12 odc.".toList.filter Char.isDigit) : Int) :=
  C5_parse_int_lenient.2.2.1 "12 odc." 0

/-! ## Claim theorems about the reconciliation loop -/

/-- C7: a row with `watchedEpisode == siteEpisode == totalEpisodes` is
skipped entirely: no fetch, no write, no notification item, no problem,
row unchanged — both for the loop body and within the loop. -/
theorem C7_complete_row_skipped (m : Mapping) (r : EpisodeCheckResult)
    (fetch : SeriesRow → EpisodeCheckResult) (s : SeriesRow) (rest : List SeriesRow)
    (h1 : s.obejrzany_odcinek = s.odcinek_na_stronie)
    (h2 : s.odcinek_na_stronie = s.liczba_odcinkow) :
    process_row m r s = ⟨s, false, [], [], []⟩ ∧
    runRows m fetch (s :: rest) =
      ⟨s :: (runRows m fetch rest).rows, (runRows m fetch rest).new_items,
        (runRows m fetch rest).problems, (runRows m fetch rest).writes,
        (runRows m fetch rest).fetchCount⟩ := by
  have hdone : s.is_done = true := by
    simp [SeriesRow.is_done, h1, h2]
  have hp : process_row m (fetch s) s = ⟨s, false, [], [], []⟩ := by
    simp [process_row, hdone]
  refine ⟨by simp [process_row, hdone], ?_⟩
  simp [runRows, hp]

/-- C7 witness: the complete row `doneRow` (8/8/8). -/
theorem C7_complete_row_skipped_witness :
    process_row sampleMapping ⟨none, none, none⟩ doneRow = ⟨doneRow, false, [], [], []⟩ ∧
    runRows sampleMapping (fun _ => ⟨none, none, none⟩) [doneRow] =
      ⟨[doneRow], [], [], [], 0⟩ := by
  have h := C7_complete_row_skipped sampleMapping ⟨none, none, none⟩
    (fun _ => ⟨none, none, none⟩) doneRow [] rfl rfl
  exact ⟨h.1, by rw [h.2]; rfl⟩

/-- C10: a row whose three numeric cells all parse to 0 satisfies the
completeness predicate (0 == 0 == 0) and is therefore skipped entirely
by the loop body: not fetched, not written, no item, no problem. -/
theorem C10_zero_parsed_row_skipped (m : Mapping) (r : EpisodeCheckResult)
    (i : Nat) (row : List String)
    (h1 : parse_int (.str (getCell row m.obejrzany_odcinek)) 0 = 0)
    (h2 : parse_int (.str (getCell row m.odcinek_na_stronie)) 0 = 0)
    (h3 : parse_int (.str (getCell row m.liczba_odcinkow)) 0 = 0) :
    (rowToSeries m i row).is_done = true ∧
    process_row m r (rowToSeries m i row) = ⟨rowToSeries m i row, false, [], [], []⟩ := by
  have hdone : (rowToSeries m i row).is_done = true := by
    simp [rowToSeries, SeriesRow.is_done, h1, h2, h3]
  exact ⟨hdone, by simp [process_row, hdone]⟩

/-- C10 witness: a row with numeric cells "brak", "" and "n/a". -/
theorem C10_zero_parsed_row_skipped_witness :
    (rowToSeries sampleMapping 2 ["Serial", "http://x", "brak", "", "n/a"]).is_done = true ∧
    process_row sampleMapping ⟨none, none, none⟩
        (rowToSeries sampleMapping 2 ["Serial", "http://x", "brak", "", "n/a"]) =
      ⟨rowToSeries sampleMapping 2 ["Serial", "http://x", "brak", "", "n/a"],
        false, [], [], []⟩ :=
  C10_zero_parsed_row_skipped sampleMapping ⟨none, none, none⟩ 2
    ["Serial", "http://x", "brak", "", "n/a"] rfl rfl rfl

/-- C2: the 5/5/12 scenario — page with "Odcinek 6" (no image) and
"Odcinek 7" (with image) gives `latest_ready = 6`, `max_found = 7`; the
reconciler writes `odcinek_na_stronie := 6` (one cell write), leaves
`liczba_odcinków` at 12, and appends exactly one notification item
(new 6, last watched 5).  In general a notification item is appended
iff `obejrzany_odcinek` is less than the possibly-updated
`odcinek_na_stronie`. -/
theorem C2_scenario_and_notification_rule :
    find_episodes sampleDoc = ⟨some 6, some 7, none⟩ ∧
    process_row sampleMapping (find_episodes sampleDoc) sampleRow =
      ⟨⟨2, "Serial", "http://example/serial", 5, 6, 12⟩, true,
        [⟨2, 4, 6⟩], [⟨"Serial", 6, 5, "http://example/serial"⟩], []⟩ ∧
    (∀ (m : Mapping) (r : EpisodeCheckResult) (s : SeriesRow),
        s.is_done = false → s.link ≠ "" → errTruthy r.error = false →
        ((process_row m r s).new_items ≠ [] ↔
          s.obejrzany_odcinek < (process_row m r s).row.odcinek_na_stronie)) := by
  refine ⟨by decide, by decide, ?_⟩
  intro m r s h1 h2 h3
  by_cases c1 : r.latest_ready.getD 0 > s.odcinek_na_stronie <;>
    by_cases c2 : r.max_found.getD 0 > s.liczba_odcinkow <;>
      simp only [process_row, h1, h2, h3, c1, c2, Bool.false_eq_true, if_false,
        if_true, if_neg, if_pos, ite_true, ite_false] <;>
      · by_cases c3 : s.obejrzany_odcinek < r.latest_ready.getD 0 <;>
          by_cases c4 : s.obejrzany_odcinek < s.odcinek_na_stronie <;>
          simp [c3, c4]

/-- C2 witness: the notification rule at the scenario inputs. -/
theorem C2_scenario_and_notification_rule_witness :
    (process_row sampleMapping (find_episodes sampleDoc) sampleRow).new_items ≠ [] ↔
      sampleRow.obejrzany_odcinek <
        (process_row sampleMapping (find_episodes sampleDoc) sampleRow).row.odcinek_na_stronie :=
  C2_scenario_and_notification_rule.2.2 sampleMapping (find_episodes sampleDoc)
    sampleRow (by decide) (by decide) (by decide)

/-- If neither detected number exceeds the corresponding stored value,
no write is issued (all skip branches issue none either). -/
theorem process_row_writes_nil (m : Mapping) (r : EpisodeCheckResult)
    (t : SeriesRow)
    (hlr : r.latest_ready.getD 0 ≤ t.odcinek_na_stronie)
    (hmf : r.max_found.getD 0 ≤ t.liczba_odcinkow) :
    (process_row m r t).writes = [] := by
  have h1 : ¬(r.latest_ready.getD 0 > t.odcinek_na_stronie) := not_lt.mpr hlr
  have h2 : ¬(r.max_found.getD 0 > t.liczba_odcinkow) := not_lt.mpr hmf
  by_cases hd : t.is_done
  · simp [process_row, hd]
  · by_cases hl : t.link = ""
    · simp [process_row, hd, hl]
    · by_cases he : errTruthy r.error
      · simp [process_row, hd, hl, he]
      · simp [process_row, hd, hl, he, h1, h2]

/-- C3: store writes are strict-increase-only and monotone: a cell
write for `odcinek_na_stronie` (resp. `liczba_odcinków`) is issued only
when the detected value strictly exceeds the stored one, the in-memory
row never decreases, and re-processing the updated row with the same
detected numbers issues no write. -/
theorem C3_monotone_strict_idempotent (m : Mapping) (r : EpisodeCheckResult)
    (s : SeriesRow) :
    s.odcinek_na_stronie ≤ (process_row m r s).row.odcinek_na_stronie ∧
    s.liczba_odcinkow ≤ (process_row m r s).row.liczba_odcinkow ∧
    (∀ w ∈ (process_row m r s).writes,
        (w = ⟨s.row_idx, m.odcinek_na_stronie + 1, r.latest_ready.getD 0⟩ ∧
          s.odcinek_na_stronie < r.latest_ready.getD 0) ∨
        (w = ⟨s.row_idx, m.liczba_odcinkow + 1, r.max_found.getD 0⟩ ∧
          s.liczba_odcinkow < r.max_found.getD 0)) ∧
    (process_row m r (process_row m r s).row).writes = [] := by
  by_cases hd : s.is_done
  · simp [process_row, hd]
  · by_cases hl : s.link = ""
    · simp [process_row, hd, hl]
    · by_cases he : errTruthy r.error
      · simp [process_row, hd, hl, he]
      · by_cases c1 : r.latest_ready.getD 0 > s.odcinek_na_stronie <;>
          by_cases c2 : r.max_found.getD 0 > s.liczba_odcinkow
        · have hrow : (process_row m r s).row =
              ⟨s.row_idx, s.nazwa, s.link, s.obejrzany_odcinek,
                r.latest_ready.getD 0, r.max_found.getD 0⟩ := by
            simp [process_row, hd, hl, he, c1, c2]
          have hw : (process_row m r s).writes =
              [⟨s.row_idx, m.odcinek_na_stronie + 1, r.latest_ready.getD 0⟩,
               ⟨s.row_idx, m.liczba_odcinkow + 1, r.max_found.getD 0⟩] := by
            simp [process_row, hd, hl, he, c1, c2]
          refine ⟨by rw [hrow]; exact le_of_lt c1, by rw [hrow]; exact le_of_lt c2, ?_, ?_⟩
          · rw [hw]
            intro w hw'
            simp only [List.mem_cons, List.mem_singleton, List.not_mem_nil, or_false] at hw'
            rcases hw' with rfl | rfl
            · exact Or.inl ⟨rfl, c1⟩
            · exact Or.inr ⟨rfl, c2⟩
          · rw [hrow]
            exact process_row_writes_nil m r _ (le_refl _) (le_refl _)
        · have hrow : (process_row m r s).row =
              ⟨s.row_idx, s.nazwa, s.link, s.obejrzany_odcinek,
                r.latest_ready.getD 0, s.liczba_odcinkow⟩ := by
            simp [process_row, hd, hl, he, c1, c2]
          have hw : (process_row m r s).writes =
              [⟨s.row_idx, m.odcinek_na_stronie + 1, r.latest_ready.getD 0⟩] := by
            simp [process_row, hd, hl, he, c1, c2]
          refine ⟨by rw [hrow]; exact le_of_lt c1, by rw [hrow], ?_, ?_⟩
          · rw [hw]
            intro w hw'
            rw [List.mem_singleton] at hw'
            subst hw'
            exact Or.inl ⟨rfl, c1⟩
          · rw [hrow]
            exact process_row_writes_nil m r _ (le_refl _) (not_lt.mp c2)
        · have hrow : (process_row m r s).row =
              ⟨s.row_idx, s.nazwa, s.link, s.obejrzany_odcinek,
                s.odcinek_na_stronie, r.max_found.getD 0⟩ := by
            simp [process_row, hd, hl, he, c1, c2]
          have hw : (process_row m r s).writes =
              [⟨s.row_idx, m.liczba_odcinkow + 1, r.max_found.getD 0⟩] := by
            simp [process_row, hd, hl, he, c1, c2]
          refine ⟨by rw [hrow], by rw [hrow]; exact le_of_lt c2, ?_, ?_⟩
          · rw [hw]
            intro w hw'
            rw [List.mem_singleton] at hw'
            subst hw'
            exact Or.inr ⟨rfl, c2⟩
          · rw [hrow]
            exact process_row_writes_nil m r _ (not_lt.mp c1) (le_refl _)
        · have hrow : (process_row m r s).row = s := by
            simp [process_row, hd, hl, he, c1, c2]
          have hw : (process_row m r s).writes = [] := by
            simp [process_row, hd, hl, he, c1, c2]
          refine ⟨by rw [hrow], by rw [hrow], by rw [hw]; simp, ?_⟩
          rw [hrow]
          exact process_row_writes_nil m r _ (not_lt.mp c1) (not_lt.mp c2)

/-- C3 witness: the theorem at the sample scenario inputs. -/
theorem C3_monotone_strict_idempotent_witness :
    sampleRow.odcinek_na_stronie ≤
      (process_row sampleMapping (find_episodes sampleDoc) sampleRow).row.odcinek_na_stronie ∧
    sampleRow.liczba_odcinkow ≤
      (process_row sampleMapping (find_episodes sampleDoc) sampleRow).row.liczba_odcinkow ∧
    (∀ w ∈ (process_row sampleMapping (find_episodes sampleDoc) sampleRow).writes,
        (w = ⟨sampleRow.row_idx, sampleMapping.odcinek_na_stronie + 1,
            (find_episodes sampleDoc).latest_ready.getD 0⟩ ∧
          sampleRow.odcinek_na_stronie < (find_episodes sampleDoc).latest_ready.getD 0) ∨
        (w = ⟨sampleRow.row_idx, sampleMapping.liczba_odcinkow + 1,
            (find_episodes sampleDoc).max_found.getD 0⟩ ∧
          sampleRow.liczba_odcinkow < (find_episodes sampleDoc).max_found.getD 0)) ∧
    (process_row sampleMapping (find_episodes sampleDoc)
        (process_row sampleMapping (find_episodes sampleDoc) sampleRow).row).writes = [] :=
  C3_monotone_strict_idempotent sampleMapping (find_episodes sampleDoc) sampleRow

/-- C9: the reader fails only on an empty sheet or an unresolvable
header; data rows shorter than a mapped column read the missing cells
as "", giving name/link `""` and numeric fields `0`. -/
theorem C9_short_rows_read_safely :
    read_series [] = .error "Arkusz jest pusty." ∧
    (∀ (hd : List String) (tl : List (List String)) (e : String),
        map_headers hd = .error e → read_series (hd :: tl) = .error e) ∧
    (∀ (hd : List String) (tl : List (List String)) (m : Mapping),
        map_headers hd = .ok m →
        read_series (hd :: tl) =
          .ok (tl.mapIdx (fun i row => rowToSeries m (i + 2) row), hd, m)) ∧
    (∀ (m : Mapping) (i : Nat) (row : List String),
        (row.length ≤ m.nazwa → (rowToSeries m i row).nazwa = "") ∧
        (row.length ≤ m.link → (rowToSeries m i row).link = "") ∧
        (row.length ≤ m.obejrzany_odcinek →
            (rowToSeries m i row).obejrzany_odcinek = 0) ∧
        (row.length ≤ m.odcinek_na_stronie →
            (rowToSeries m i row).odcinek_na_stronie = 0) ∧
        (row.length ≤ m.liczba_odcinkow →
            (rowToSeries m i row).liczba_odcinkow = 0)) := by
  refine ⟨rfl, ?_, ?_, ?_⟩
  · intro hd tl e h
    simp [read_series, h]
  · intro hd tl mm h
    simp [read_series, h]
  · intro mm i row
    have deflt : ∀ idx, row.length ≤ idx → getCell row idx = "" :=
      fun idx h => List.getD_eq_default _ _ h
    refine ⟨fun h => deflt _ h, fun h => deflt _ h, fun h => ?_, fun h => ?_, fun h => ?_⟩
    · show parse_int (.str (getCell row mm.obejrzany_odcinek)) 0 = 0
      rw [deflt _ h]
      rfl
    · show parse_int (.str (getCell row mm.odcinek_na_stronie)) 0 = 0
      rw [deflt _ h]
      rfl
    · show parse_int (.str (getCell row mm.liczba_odcinkow)) 0 = 0
      rw [deflt _ h]
      rfl

/-- C9 witness: a one-cell data row under the canonical header. -/
theorem C9_short_rows_read_safely_witness :
    read_series (sampleHeader :: [["OnlyName"]]) =
      .ok ([["OnlyName"]].mapIdx
        (fun i row => rowToSeries sampleMapping (i + 2) row), sampleHeader, sampleMapping) :=
  C9_short_rows_read_safely.2.2.1 sampleHeader [["OnlyName"]] sampleMapping rfl

end DramaChecker
